import Mathlib

/-!
# Verification of the MA-Grader answer-verification engine

This file gives a shallow embedding, in Lean 4, of the core grading logic of
the MA-Grader spreadsheet-homework grader, together with theorems settling the
specification claims about it.

Python strings are modelled as lists of Unicode code points (`PyStr`), raw
spreadsheet cell values as the tagged variant `CellVal`, worksheets as maps
from cell addresses to values plus format strings and chart objects, and
Python exceptions as the `Except PyError` monad.  Each embedded definition
mirrors one function of the repository and keeps its (snake_case) name.
-/

namespace MAGrader

/-! ## Python string primitives

`PyStr` models a Python `str` as the list of its character codes.  The
helpers below model the exact string operations used by the graders:
`str.upper`/`str.lower` (the graded content is ASCII, and the embedded
case functions act on the ASCII letter ranges), `str.replace(old, "")` for a
one-character `old`, `str.strip`, substring tests (`in`), `startswith`, and
`endswith`. -/

abbrev PyStr := List Nat

/-- Convert a Lean string literal to its `PyStr` code-point list. -/
def pystr (s : String) : PyStr := s.data.map Char.toNat

/-- ASCII uppercasing of one code point, as done by `str.upper` on the
letters appearing in formulas. -/
def upperCode (n : Nat) : Nat := if 97 ≤ n ∧ n ≤ 122 then n - 32 else n

/-- ASCII lowercasing of one code point, as done by `str.lower`. -/
def lowerCode (n : Nat) : Nat := if 65 ≤ n ∧ n ≤ 90 then n + 32 else n

/-- Model of Python `s.upper()`. -/
def pyUpper (s : PyStr) : PyStr := s.map upperCode

/-- Model of Python `s.lower()`. -/
def pyLower (s : PyStr) : PyStr := s.map lowerCode

/-- Model of Python `s.replace(c, "")` for a single character `c`. -/
def removeAll (c : Nat) (s : PyStr) : PyStr := s.filter (fun d => d ≠ c)

/-- ASCII whitespace, as stripped by Python `str.strip()`. -/
def isSpaceCode (n : Nat) : Bool :=
  n = 32 || n = 9 || n = 10 || n = 13 || n = 11 || n = 12

/-- Model of Python `s.strip()`. -/
def pyStrip (s : PyStr) : PyStr :=
  ((s.dropWhile isSpaceCode).reverse.dropWhile isSpaceCode).reverse

/-- Does `hay` contain `pat` as a contiguous substring, scanning from a given
suffix onwards?  Helper for `containsSub`. -/
def containsFrom (pat : PyStr) : PyStr → Bool
  | [] => pat.isEmpty
  | c :: rest => pat.isPrefixOf (c :: rest) || containsFrom pat rest

/-- Model of Python `pat in hay` (substring test). -/
def containsSub (hay pat : PyStr) : Bool := containsFrom pat hay

/-- Model of Python `s.startswith(pat)`. -/
def startsWithSub (s pat : PyStr) : Bool := pat.isPrefixOf s

/-- Model of Python `s.endswith(pat)`. -/
def endsWithSub (s pat : PyStr) : Bool := pat.isSuffixOf s

/-- ASCII digit test, modelling `\d` of the graders' regexes. -/
def isDigitCode (n : Nat) : Bool := 48 ≤ n && n ≤ 57

/-- Value of a digit run, modelling Python `int(...)` on a match group. -/
def digitsToNat (ds : PyStr) : Nat := ds.foldl (fun a d => a * 10 + (d - 48)) 0

/-- Decimal representation of a natural number, modelling f-string
interpolation of a Python `int`. -/
def natToStr (n : Nat) : PyStr := (Nat.toDigits 10 n).map Char.toNat

/-! ## Python rounding

Python's `round(x, n)` rounds half to even.  The score values the graders
round are small decimal fractions, represented exactly by `ℚ` here. -/

/-- Round a rational to the nearest integer, halves to even
(Python `round(x)`). -/
def roundHalfEven (q : ℚ) : ℤ :=
  if q - (⌊q⌋ : ℚ) < 1/2 then ⌊q⌋
  else if 1/2 < q - (⌊q⌋ : ℚ) then ⌊q⌋ + 1
  else if ⌊q⌋ % 2 = 0 then ⌊q⌋ else ⌊q⌋ + 1

/-- Model of Python `round(x, 1)`. -/
def pyRound1 (q : ℚ) : ℚ := (roundHalfEven (q * 10) : ℚ) / 10

/-- Model of Python `round(x, 2)`. -/
def pyRound2 (q : ℚ) : ℚ := (roundHalfEven (q * 100) : ℚ) / 100

/-! ## Cell values, worksheets, workbooks

`CellVal` is the tagged variant of raw openpyxl cell values the graders
branch on: blank (`None`), string (possibly a formula), number, boolean, or
an `ArrayFormula` object carrying its formula text.  Chart objects model the
openpyxl chart attributes read by `check_scatterplot`; the optional
reference/title fields stand for the `hasattr`/`is None` attribute chains of
the source, with `none` meaning the attribute is absent or `None`. -/

inductive PyError where
  | valueError
  | attributeError
  | keyError
  | typeError
  | invalidFileError
deriving DecidableEq, Repr

inductive CellVal where
  | empty
  | str (s : PyStr)
  | num (q : ℚ)
  | boolean (b : Bool)
  | arrf (text : PyStr)
deriving DecidableEq

/-- Python truthiness of a raw cell value (`if cell.value:`).  `str()` of a
number, boolean or ArrayFormula object is never empty. -/
def cellTruthy : CellVal → Bool
  | .empty => false
  | .str s => !s.isEmpty
  | .num q => q ≠ 0
  | .boolean b => b
  | .arrf _ => true

structure Trendline where
  backward : Option ℚ
  forward : Option ℚ
deriving DecidableEq

structure Series where
  xRef : Option PyStr
  yRef : Option PyStr
  valRef : Option PyStr
  trendline : Option Trendline
deriving DecidableEq

structure Chart where
  isScatter : Bool
  series : List Series
  title : Option PyStr
  xAxisTitle : Option PyStr
  yAxisTitle : Option PyStr
deriving DecidableEq

structure Worksheet where
  cells : PyStr → CellVal
  numberFormat : PyStr → PyStr
  charts : List Chart

/-- The empty worksheet (all cells blank, default format, no charts). -/
def emptyWs : Worksheet :=
  { cells := fun _ => .empty
    numberFormat := fun _ => pystr "General"
    charts := [] }

/-- Overwrite one cell of a worksheet. -/
def updateCell (ws : Worksheet) (a : PyStr) (v : CellVal) : Worksheet :=
  { ws with cells := fun addr => if addr = a then v else ws.cells addr }

/-- Build a worksheet from an address/value association list (first match
wins; unlisted cells are blank). -/
def wsOfList (l : List (PyStr × CellVal)) : Worksheet :=
  { cells := fun a => (((l.find? (fun p => p.1 = a)).map Prod.snd).getD .empty)
    numberFormat := fun _ => pystr "General"
    charts := [] }

/-! ## `graders/ma3_analysis/check_statistics.py`

Embedding of the statistics grader: normalization, function-name extraction,
the comma-instead-of-colon and range-offset partial-credit detectors, the
four per-statistic check functions, and the 12-cell aggregation loop.

The two detector regexes `\$?COL\$?\d+,\$?COL\$?\d+` and
`\$?COL\$?(\d+):\$?COL\$?(\d+)` are deterministic on the alphabet at hand
(`$` is neither a column letter nor a digit, and a digit run followed by a
required non-digit literal admits no backtracking), so they are embedded as
the straight-line matchers below; `re.search` semantics is the leftmost
matching start position. -/

/-- Partial credit multipliers (module constants of `check_statistics.py`). -/
def CREDIT_FULL : ℚ := 1
def CREDIT_RANGE_OFFSET : ℚ := 3/4
def CREDIT_COMMA_NOT_COLON : ℚ := 1/2
def CREDIT_NONE : ℚ := 0

/-- Embeds `_normalize_formula`: `formula.replace(" ", "").upper()`, with falsy
(empty) input yielding the empty string. -/
def normalize_formula (s : PyStr) : PyStr :=
  if s.isEmpty then [] else pyUpper (removeAll 32 s)

/-- Embeds `_normalize_formula` applied to an arbitrary raw cell value.  A falsy
value (`None`, `""`, `0`, `False`) fails the `if not formula` guard and
yields `""`; a truthy string is normalized; any truthy non-string value
reaches `formula.replace(" ", "")` and raises `AttributeError`, since
numbers, booleans and ArrayFormula objects have no `replace` method. -/
def normalize_formula_py (v : CellVal) : Except PyError PyStr :=
  if cellTruthy v = false then .ok []
  else
    match v with
    | .str s => .ok (pyUpper (removeAll 32 s))
    | _ => .error .attributeError

/-- Character class `[A-Z_.]` of the function-name regex. -/
def isFuncCode (n : Nat) : Bool := (65 ≤ n && n ≤ 90) || n = 95 || n = 46

/-- Embeds `re.match(r'^=([A-Z_.]+)\(', s)`: the function name after `=`,
if the greedy class run is nonempty and followed by `(`. -/
def matchFuncName : PyStr → Option PyStr
  | 61 :: rest =>
    let run := rest.takeWhile isFuncCode
    if run.isEmpty then none
    else
      match rest.drop run.length with
      | 40 :: _ => some run
      | _ => none
  | _ => none

/-- Embeds `re.match(r'^=_XLFN\.([A-Z_.]+)\(', s)` (the Excel-internal-prefix
fallback branch of `_extract_function_name`). -/
def matchXlfnName (l : PyStr) : Option PyStr :=
  if startsWithSub l (pystr "=_XLFN.") then
    let rest := l.drop 7
    let run := rest.takeWhile isFuncCode
    if run.isEmpty then none
    else
      match rest.drop run.length with
      | 40 :: _ => some run
      | _ => none
  else none

/-- Embeds `_extract_function_name`. -/
def extract_function_name (formula : PyStr) : PyStr :=
  if formula.isEmpty then []
  else if ¬ startsWithSub formula (pystr "=") then []
  else
    let normalized := normalize_formula formula
    match matchFuncName normalized with
    | some run => run
    | none =>
      match matchXlfnName normalized with
      | some run => run
      | none => []

/-- Consume one optional `$` (the `\$?` regex atom). -/
def skipDollar : PyStr → PyStr
  | 36 :: rest => rest
  | l => l

/-- Match `\$?COL\$?(\d+)` at the head of `l`; on success return the digit
group's value and the rest of the input. -/
def matchCellRefNum (col : PyStr) (l : PyStr) : Option (Nat × PyStr) :=
  let l1 := skipDollar l
  if col.isPrefixOf l1 then
    let l2 := skipDollar (l1.drop col.length)
    let ds := l2.takeWhile isDigitCode
    if ds.isEmpty then none else some (digitsToNat ds, l2.drop ds.length)
  else none

/-- Match `\$?COL\$?\d+,\$?COL\$?\d+` at the head of `l`. -/
def commaMatchAt (col : PyStr) (l : PyStr) : Bool :=
  match matchCellRefNum col l with
  | some (_, rest) =>
    match rest with
    | 44 :: rest2 => (matchCellRefNum col rest2).isSome
    | _ => false
  | none => false

/-- Embeds `re.search` of the comma pattern: try every start position. -/
def searchComma (col : PyStr) : PyStr → Bool
  | [] => false
  | c :: rest => commaMatchAt col (c :: rest) || searchComma col rest

/-- Embeds `_detect_comma_instead_of_colon`. -/
def detect_comma_instead_of_colon (formula col : PyStr) : Bool :=
  searchComma col (normalize_formula formula)

/-- Match `\$?COL\$?(\d+):\$?COL\$?(\d+)` at the head of `l`, returning the
two numeric groups. -/
def rangeMatchAt (col : PyStr) (l : PyStr) : Option (Nat × Nat) :=
  match matchCellRefNum col l with
  | some (a, rest) =>
    match rest with
    | 58 :: rest2 =>
      match matchCellRefNum col rest2 with
      | some (b, _) => some (a, b)
      | none => none
    | _ => none
  | none => none

/-- Embeds `re.search` of the colon-range pattern: leftmost match wins. -/
def searchRange (col : PyStr) : PyStr → Option (Nat × Nat)
  | [] => none
  | c :: rest =>
    match rangeMatchAt col (c :: rest) with
    | some p => some p
    | none => searchRange col rest

/-- Embeds `_detect_range_offset`: the first colon-range on the expected column has
both endpoints within `tolerance` of the expected endpoints, and the two
offsets are not both zero. -/
def detect_range_offset (formula col : PyStr)
    (expected_start expected_end tolerance : ℤ) : Bool :=
  match searchRange col (normalize_formula formula) with
  | none => false
  | some (a, b) =>
    if |(a : ℤ) - expected_start| = 0 ∧ |(b : ℤ) - expected_end| = 0 then
      false
    else
      decide (|(a : ℤ) - expected_start| ≤ tolerance
        ∧ |(b : ℤ) - expected_end| ≤ tolerance)

/-- Embeds `col_map = {"G": "B", "H": "C", "I": "D"}` with default `""`. -/
def col_map (col : PyStr) : PyStr :=
  if col = pystr "G" then pystr "B"
  else if col = pystr "H" then pystr "C"
  else if col = pystr "I" then pystr "D"
  else []

/-- The four accepted exact range spellings for a column. -/
def range_patterns (ec : PyStr) : List PyStr :=
  [ ec ++ pystr "14:" ++ ec ++ pystr "63"
  , pystr "$" ++ ec ++ pystr "$14:$" ++ ec ++ pystr "$63"
  , pystr "$" ++ ec ++ pystr "14:$" ++ ec ++ pystr "63"
  , ec ++ pystr "$14:" ++ ec ++ pystr "$63" ]

/-- Embeds `_check_mean_formula`. -/
def check_mean_formula (formula col : PyStr) : ℚ :=
  if extract_function_name formula ≠ pystr "AVERAGE" then CREDIT_NONE
  else if (range_patterns (col_map col)).any
      (fun p => containsSub (normalize_formula formula) p) then CREDIT_FULL
  else if detect_comma_instead_of_colon formula (col_map col) then
    CREDIT_COMMA_NOT_COLON
  else if detect_range_offset formula (col_map col) 14 63 3 then
    CREDIT_RANGE_OFFSET
  else CREDIT_NONE

/-- Full-credit qualification of `_check_mean_formula`: correct function
and one of the four exact range spellings present. -/
def mean_full_pattern (formula col : PyStr) : Bool :=
  extract_function_name formula = pystr "AVERAGE"
    && (range_patterns (col_map col)).any
        (fun p => containsSub (normalize_formula formula) p)

/-- Embeds `_check_median_formula`. -/
def check_median_formula (formula col : PyStr) : ℚ :=
  if extract_function_name formula ≠ pystr "MEDIAN" then CREDIT_NONE
  else
    let normalized := normalize_formula formula
    let ec := col_map col
    if (range_patterns ec).any (fun p => containsSub normalized p) then CREDIT_FULL
    else if detect_comma_instead_of_colon formula ec then CREDIT_COMMA_NOT_COLON
    else if detect_range_offset formula ec 14 63 3 then CREDIT_RANGE_OFFSET
    else CREDIT_NONE

/-- Embeds `_check_stdev_formula`, including the `=-STDEV...` negative-prefix
handling. -/
def check_stdev_formula (formula col : PyStr) : ℚ :=
  if formula.isEmpty then CREDIT_NONE
  else if ¬ startsWithSub formula (pystr "=") then CREDIT_NONE
  else
    let normalized0 := normalize_formula formula
    let normalized :=
      if startsWithSub normalized0 (pystr "=-") then 61 :: normalized0.drop 2
      else normalized0
    let func := extract_function_name (61 :: normalized.drop 1)
    let has_stdev :=
      containsSub normalized (pystr "STDEV(")
        || containsSub normalized (pystr "STDEV.P(")
        || containsSub normalized (pystr "STDEV.S(")
    if ¬ has_stdev
        ∧ func ∉ [pystr "STDEV", pystr "STDEV.P", pystr "STDEV.S"] then
      CREDIT_NONE
    else
      let ec := col_map col
      if (range_patterns ec).any (fun p => containsSub normalized p) then
        CREDIT_FULL
      else if detect_comma_instead_of_colon formula ec then
        CREDIT_COMMA_NOT_COLON
      else if detect_range_offset formula ec 14 63 3 then CREDIT_RANGE_OFFSET
      else CREDIT_NONE

/-- Embeds `_check_range_formula` (MAX − MIN). -/
def check_range_formula (formula col : PyStr) : ℚ :=
  if formula.isEmpty then CREDIT_NONE
  else if ¬ startsWithSub formula (pystr "=") then CREDIT_NONE
  else
    let normalized := normalize_formula formula
    let ec := col_map col
    if ¬ containsSub normalized (pystr "MAX(")
        ∨ ¬ containsSub normalized (pystr "MIN(") then CREDIT_NONE
    else if ¬ containsSub normalized ec then CREDIT_NONE
    else if ¬ containsSub normalized (pystr "-") then CREDIT_NONE
    else
      let correct_range_patterns :=
        [ ec ++ pystr "14:" ++ ec ++ pystr "63"
        , pystr "$" ++ ec ++ pystr "$14:$" ++ ec ++ pystr "$63" ]
      if correct_range_patterns.any (fun p => containsSub normalized p) then
        CREDIT_FULL
      else if detect_comma_instead_of_colon formula ec then
        CREDIT_COMMA_NOT_COLON
      else if detect_range_offset formula ec 14 63 3 then CREDIT_RANGE_OFFSET
      else CREDIT_NONE

/-- The four statistic kinds graded in G18:I21. -/
inductive StatKind where
  | mean
  | median
  | stdev
  | srange
deriving DecidableEq

/-- Dispatch to the per-statistic check function. -/
def stat_check : StatKind → PyStr → PyStr → ℚ
  | .mean, f, c => check_mean_formula f c
  | .median, f, c => check_median_formula f c
  | .stdev, f, c => check_stdev_formula f c
  | .srange, f, c => check_range_formula f c

/-- The `checks` table of `check_statistics`: (row, column, statistic). -/
def statChecks : List (Nat × PyStr × StatKind) :=
  [ (18, pystr "G", .mean), (18, pystr "H", .mean), (18, pystr "I", .mean)
  , (19, pystr "G", .median), (19, pystr "H", .median), (19, pystr "I", .median)
  , (20, pystr "G", .stdev), (20, pystr "H", .stdev), (20, pystr "I", .stdev)
  , (21, pystr "G", .srange), (21, pystr "H", .srange), (21, pystr "I", .srange) ]

/-- Embeds the blank test `formula is None or str(formula).strip() == ""`:  `str()` of a number,
boolean or ArrayFormula object is never whitespace-only. -/
def cellIsBlank : CellVal → Bool
  | .empty => true
  | .str s => (pyStrip s).isEmpty
  | _ => false

/-- The missing-cell feedback code of a statistic row. -/
def stat_missing_code : StatKind → String
  | .mean => "STAT_MEAN_MISSING"
  | .median => "STAT_MEDIAN_MISSING"
  | .stdev => "STAT_STDEV_MISSING"
  | .srange => "STAT_RANGE_MISSING"

/-- The wrong-formula feedback code of a statistic row. -/
def stat_wrong_code : StatKind → String
  | .mean => "STAT_MEAN_WRONG"
  | .median => "STAT_MEDIAN_WRONG"
  | .stdev => "STAT_STDEV_WRONG"
  | .srange => "STAT_RANGE_WRONG"

/-- The partial-credit feedback code of a statistic row. -/
def stat_partial_code : StatKind → String
  | .mean => "STAT_MEAN_PARTIAL"
  | .median => "STAT_MEDIAN_PARTIAL"
  | .stdev => "STAT_STDEV_PARTIAL"
  | .srange => "STAT_RANGE_PARTIAL"

/-- One iteration of the `check_statistics` loop, as a function of the raw
value found at the cell: the points earned, the contribution to the
full/partial counters, and the feedback codes appended. -/
def stat_cell_val (_row : Nat) (col : PyStr) (kind : StatKind) (v : CellVal) :
    ℚ × Nat × Nat × List String :=
  if cellIsBlank v then (0, 0, 0, [stat_missing_code kind])
  else
    match v with
    | .str s =>
      if ¬ startsWithSub s (pystr "=") then (0, 0, 0, [stat_wrong_code kind])
      else
        let credit := stat_check kind s col
        if credit = CREDIT_FULL then (2, 1, 0, [])
        else if credit = CREDIT_RANGE_OFFSET then
          (2 * CREDIT_RANGE_OFFSET, 0, 1, [stat_partial_code kind])
        else if credit = CREDIT_COMMA_NOT_COLON then
          (2 * CREDIT_COMMA_NOT_COLON, 0, 1, [stat_partial_code kind])
        else (0, 0, 0, [stat_wrong_code kind])
    | _ => (0, 0, 0, [stat_wrong_code kind])

/-- One iteration of the `check_statistics` loop: reads
`sheet[f"{col}{row}"].value` and classifies it. -/
def stat_cell (ws : Worksheet) (row : Nat) (col : PyStr) (kind : StatKind) :
    ℚ × Nat × Nat × List String :=
  stat_cell_val row col kind (ws.cells (col ++ natToStr row))

/-- The loop of `check_statistics`: accumulated points, full-credit count,
partial-credit count, per-cell feedback codes (in cell order). -/
def stat_loop (ws : Worksheet) : List (Nat × PyStr × StatKind) →
    ℚ × Nat × Nat × List String
  | [] => (0, 0, 0, [])
  | (row, col, kind) :: rest =>
    let r := stat_cell ws row col kind
    let rT := stat_loop ws rest
    (r.1 + rT.1, r.2.1 + rT.2.1, r.2.2.1 + rT.2.2.1, r.2.2.2 ++ rT.2.2.2)

/-- Embeds `check_statistics`: grade G18:I21, returning (score, feedback codes). -/
def check_statistics (ws : Worksheet) : ℚ × List String :=
  let r := stat_loop ws statChecks
  let score := pyRound2 r.1
  let feedback :=
    if r.2.1 = 12 then ["STATS_ALL_CORRECT"]
    else if r.2.1 = 0 ∧ r.2.2.1 = 0 then "STATS_NONE_CORRECT" :: r.2.2.2
    else if 0 < r.2.2.1 then "STATS_PARTIAL_CREDIT" :: r.2.2.2
    else "STATS_PARTIAL" :: r.2.2.2
  (score, feedback)

/-! ## `graders/income_analysis/` checkers -/

/-- Embeds `check_name_present`: 1 point when B1 holds a truthy value whose
`str(...).strip()` is nonempty (`str()` of a nonzero number, `True`, or an
ArrayFormula object is never whitespace-only). -/
def check_name_present (ws : Worksheet) : Nat × List String :=
  let v := ws.cells (pystr "B1")
  let present :=
    cellTruthy v &&
      (match v with
       | .str s => !(pyStrip s).isEmpty
       | _ => true)
  if present then (1, ["IA_NAME_PRESENT"]) else (0, ["IA_NAME_MISSING"])

/-- The normalization of `check_slope_intercept`:
`value.strip().replace(" ", "").replace("$", "").upper()` for string cells,
`""` otherwise. -/
def slope_cell_formula (v : CellVal) : PyStr :=
  match v with
  | .str s => pyUpper (removeAll 36 (removeAll 32 (pyStrip s)))
  | _ => []

/-- The B30 branch of `check_slope_intercept`: (points, reversed?, codes). -/
def slope_branch (slope_formula : PyStr) : Nat × Bool × List String :=
  if slope_formula = pystr "=SLOPE(B19:B26,A19:A26)" then
    (3, false, ["IA_SLOPE_CORRECT"])
  else if slope_formula = pystr "=SLOPE(A19:A26,B19:B26)" then
    (2, true, ["IA_SLOPE_REVERSED"])
  else if containsSub slope_formula (pystr "SLOPE(") then
    (1, false, ["IA_SLOPE_WRONG_RANGE"])
  else (0, false, ["IA_SLOPE_MISSING"])

/-- The B31 branch of `check_slope_intercept`. -/
def intercept_branch (intercept_formula : PyStr) : Nat × Bool × List String :=
  if intercept_formula = pystr "=INTERCEPT(B19:B26,A19:A26)" then
    (3, false, ["IA_INTERCEPT_CORRECT"])
  else if intercept_formula = pystr "=INTERCEPT(A19:A26,B19:B26)" then
    (2, true, ["IA_INTERCEPT_REVERSED"])
  else if containsSub intercept_formula (pystr "INTERCEPT(") then
    (1, false, ["IA_INTERCEPT_WRONG_RANGE"])
  else (0, false, ["IA_INTERCEPT_MISSING"])

/-- Embeds `check_slope_intercept`: grade B30 and B31 (0–6 points), with the
X/Y-swapped summary code when both are reversed. -/
def check_slope_intercept (ws : Worksheet) : Nat × List String :=
  let r1 := slope_branch (slope_cell_formula (ws.cells (pystr "B30")))
  let r2 := intercept_branch (slope_cell_formula (ws.cells (pystr "B31")))
  let fb := r1.2.2 ++ r2.2.2
  (r1.1 + r2.1,
    if r1.2.1 && r2.2.1 then "IA_XY_DATA_SWAPPED" :: fb else fb)

/-- Embeds `_is_zero_decimal_number_format`. -/
def is_zero_decimal_number_format (fmt : PyStr) : Bool :=
  if fmt.isEmpty then false
  else
    let fmt := pyStrip fmt
    let allowed_exact :=
      [ pystr "0", pystr "0_", pystr "0_)", pystr "#,##0", pystr "#,##0_"
      , pystr "#,##0_)", pystr "0;-0;0", pystr "#,##0;-#,##0;0"
      , pystr "#,##0;-#,##0", pystr "#,##0_);(#,##0)"
      , pystr "#,##0_);[Red](#,##0)", pystr "0_);(0)", pystr "0_);[Red](0)"
      , pystr "General" ]
    if fmt ∈ allowed_exact then true
    else if containsSub fmt (pystr ".0") || containsSub fmt (pystr ".#") then
      false
    else containsSub fmt (pystr "0") || containsSub fmt (pystr "#")

/-- Embeds `check_slope_intercept_formatting`: 0.5 points per correctly formatted
cell of B30, B31. -/
def check_slope_intercept_formatting (ws : Worksheet) : ℚ × List String :=
  let slope_fmt := ws.numberFormat (pystr "B30")
  let intercept_fmt := ws.numberFormat (pystr "B31")
  let (s1, fb1) :=
    if is_zero_decimal_number_format slope_fmt then
      ((1 : ℚ)/2, ["IA_SLOPE_FORMAT_CORRECT"])
    else (0, ["IA_SLOPE_FORMAT_INCORRECT"])
  let (s2, fb2) :=
    if is_zero_decimal_number_format intercept_fmt then
      ((1 : ℚ)/2, ["IA_INTERCEPT_FORMAT_CORRECT"])
    else (0, ["IA_INTERCEPT_FORMAT_INCORRECT"])
  (s1 + s2, fb1 ++ fb2)

/-- Embeds `_has_required_refs`: `formula.upper().replace("$", "")` contains both
`B30` and `B31`. -/
def has_required_refs (formula : PyStr) : Bool :=
  if formula.isEmpty then false
  else
    let normalized := removeAll 36 (pyUpper formula)
    containsSub normalized (pystr "B30") && containsSub normalized (pystr "B31")

/-- Embeds `_has_years_ref`: the formula references `D{row}`. -/
def has_years_ref (formula : PyStr) (row : Nat) : Bool :=
  if formula.isEmpty then false
  else
    let normalized := removeAll 36 (pyUpper formula)
    containsSub normalized (pystr "D" ++ natToStr row)

/-- Per-row classification of the `check_predictions` loop: counters
(correct, missing_slope_intercept, missing_years_ref, not_formula). -/
def prediction_cell_counts (v : CellVal) (row : Nat) : Nat × Nat × Nat × Nat :=
  let formula? : Option PyStr :=
    match v with
    | .arrf text => some text
    | .str s => if startsWithSub s (pystr "=") then some s else none
    | _ => none
  match formula? with
  | none => (0, 0, 0, 1)
  | some formula =>
    let hsi := has_required_refs formula
    let hy := has_years_ref formula row
    if hsi && hy then (1, 0, 0, 0)
    else if hsi && !hy then (0, 0, 1, 0)
    else (0, 1, 0, 0)

/-- The rows E19..E35 of the predictions range. -/
def predictionRows : List Nat := List.range' 19 17

/-- The loop of `check_predictions`, summing the per-row counters. -/
def prediction_counts (ws : Worksheet) : Nat × Nat × Nat × Nat :=
  (predictionRows.map fun row =>
      prediction_cell_counts (ws.cells (pystr "E" ++ natToStr row)) row).foldr
    (fun a b => (a.1 + b.1, a.2.1 + b.2.1, a.2.2.1 + b.2.2.1, a.2.2.2 + b.2.2.2))
    (0, 0, 0, 0)

/-- The specific feedback built by `check_predictions` when no cell is
correct. -/
def predictions_zero_feedback
    (missing_slope_intercept missing_years_ref not_formula : Nat) :
    List String :=
  let fb :=
    (if 0 < not_formula then ["IA_PREDICTIONS_NOT_FORMULAS"] else [])
      ++ (if 0 < missing_slope_intercept then
            ["IA_PREDICTIONS_MISSING_REFS"] else [])
      ++ (if 0 < missing_years_ref then
            ["IA_PREDICTIONS_MISSING_YEARS"] else [])
  if fb.isEmpty then ["IA_PREDICTIONS_NONE_CORRECT"] else fb

/-- Embeds `check_predictions`: proportional credit over E19:E35, 6 points max;
partial scores are `round(correct * (6/17), 1)`. -/
def check_predictions (ws : Worksheet) : ℚ × List String :=
  if (prediction_counts ws).1 = 17 then (6, ["IA_PREDICTIONS_ALL_CORRECT"])
  else if (prediction_counts ws).1 = 0 then
    (0, predictions_zero_feedback (prediction_counts ws).2.1
      (prediction_counts ws).2.2.1 (prediction_counts ws).2.2.2)
  else
    (pyRound1 (((prediction_counts ws).1 : ℚ) * (6/17)),
      ["IA_PREDICTIONS_PARTIAL"])

/-- Embeds `_is_currency_zero_decimal`. -/
def is_currency_zero_decimal (fmt : PyStr) : Bool :=
  if fmt.isEmpty then false
  else if ¬ containsSub fmt (pystr "$") then false
  else if containsSub fmt (pystr ".0") || containsSub fmt (pystr ".#") then
    false
  else containsSub fmt (pystr "0") || containsSub fmt (pystr "#")

/-- Embeds `check_currency_formatting`: proportional credit (1 point max) over the
number formats of E19:E35; partial scores are `round(correct/17, 2)`. -/
def check_currency_formatting (ws : Worksheet) : ℚ × List String :=
  let correct_count :=
    (predictionRows.filter fun row =>
      is_currency_zero_decimal (ws.numberFormat (pystr "E" ++ natToStr row))).length
  if correct_count = 17 then (1, ["IA_PRED_FORMAT_ALL_CORRECT"])
  else if correct_count = 0 then (0, ["IA_PRED_FORMAT_NONE_CORRECT"])
  else (pyRound2 ((correct_count : ℚ) / 17), ["IA_PRED_FORMAT_PARTIAL"])

/-- A worksheet whose predictions range E19:E35 holds 8 correct prediction
formulas (rows 19–26) and 9 incorrect ones (rows 27–35). -/
def wsEightOfSeventeen : Worksheet :=
  wsOfList
    ((List.range' 19 8).map (fun r =>
        (pystr "E" ++ natToStr r,
          CellVal.str (pystr "=B30*D" ++ natToStr r ++ pystr "+B31")))
      ++ (List.range' 27 9).map (fun r =>
        (pystr "E" ++ natToStr r, CellVal.str (pystr "=INVALID"))))

/-! ## `graders/income_analysis/check_scatterplot.py` -/

/-- The Y-value reference of a series: `yVal.numRef.f`, falling back to
`val.numRef.f` when the former is absent. -/
def y_ref_of (series : Series) : Option PyStr :=
  match series.yRef with
  | some r => some r
  | none => series.valRef

/-- Embeds `_check_chart_data_source`, per series: the first series triggering a
verdict decides; if no series decides, the benefit of the doubt is given. -/
def chart_data_source_loop : List Series → Bool
  | [] => true
  | series :: rest =>
    let x_ref := series.xRef
    let y_ref := y_ref_of series
    let x_ref_str := pyUpper (x_ref.getD [])
    let y_ref_str := pyUpper (y_ref.getD [])
    if !y_ref_str.isEmpty
        && (containsSub y_ref_str (pystr "$E$")
            || containsSub y_ref_str (pystr ":E")
            || containsSub y_ref_str (pystr "E:")
            || endsWithSub y_ref_str (pystr "E")) then false
    else if !y_ref_str.isEmpty
        && (containsSub y_ref_str (pystr "$D$")
            || containsSub y_ref_str (pystr ":D")
            || containsSub y_ref_str (pystr "D:"))
        && (!x_ref_str.isEmpty
            && (containsSub x_ref_str (pystr "$E$")
                || containsSub x_ref_str (pystr ":E"))) then false
    else
      let x_uses_a :=
        !x_ref_str.isEmpty
          && (containsSub x_ref_str (pystr "$A$")
              || containsSub x_ref_str (pystr ":A")
              || containsSub x_ref_str (pystr "A:"))
      let y_uses_b :=
        !y_ref_str.isEmpty
          && (containsSub y_ref_str (pystr "$B$")
              || containsSub y_ref_str (pystr ":B")
              || containsSub y_ref_str (pystr "B:"))
      if x_uses_a && y_uses_b then true
      else if containsSub x_ref_str (pystr "$E")
          || containsSub y_ref_str (pystr "$E") then false
      else chart_data_source_loop rest

/-- Embeds `_check_chart_data_source` (the boolean verdict; the description string
is presentation only). -/
def check_chart_data_source (chart : Chart) : Bool :=
  chart_data_source_loop chart.series

/-- Embeds `_extract_text_from_title` on our chart model, where a present title is
a plain string: strip it; an absent title gives `""`. -/
def extract_text_from_title : Option PyStr → PyStr
  | none => []
  | some s => pyStrip s

/-- A Python object returned by a grader, as far as the pipeline
inspects it: a numeric score or a feedback list.  `check_scatterplot`
returns a tuple of these, modelled as a list. -/
inductive PyObj where
  | num (q : ℚ)
  | fb (codes : List String)
deriving DecidableEq

/-- Embeds `check_scatterplot`: returns the three-element tuple
`(chart_labels_score, trendline_score, feedback)` on every path. -/
def check_scatterplot (ws : Worksheet) : List PyObj :=
  match ws.charts.find? (fun c => c.isScatter) with
  | none => [.num 0, .num 0, .fb ["IA_SCATTER_NOT_FOUND"]]
  | some scatter_chart =>
    let (s1, fb1) :=
      if check_chart_data_source scatter_chart then
        ((3 : ℚ), ["IA_SCATTER_FOUND"])
      else ((1 : ℚ), ["IA_SCATTER_WRONG_DATA"])
    let title_text := extract_text_from_title scatter_chart.title
    let (s2, fb2) :=
      if !title_text.isEmpty then ((1 : ℚ), ["IA_SCATTER_TITLE_PRESENT"])
      else (0, ["IA_SCATTER_TITLE_MISSING"])
    let x_label := extract_text_from_title scatter_chart.xAxisTitle
    let (s3, fb3) :=
      if !x_label.isEmpty then ((1 : ℚ), ["IA_SCATTER_XLABEL_PRESENT"])
      else (0, ["IA_SCATTER_XLABEL_MISSING"])
    let y_label := extract_text_from_title scatter_chart.yAxisTitle
    let (s4, fb4) :=
      if !y_label.isEmpty then ((1 : ℚ), ["IA_SCATTER_YLABEL_PRESENT"])
      else (0, ["IA_SCATTER_YLABEL_MISSING"])
    let chart_labels_score := s1 + s2 + s3 + s4
    let trendline_obj :=
      (scatter_chart.series.find? (fun s => s.trendline.isSome)).bind
        (fun s => s.trendline)
    let (t1, fb5) :=
      if trendline_obj.isSome then ((1 : ℚ), ["IA_SCATTER_TRENDLINE_PRESENT"])
      else (0, ["IA_SCATTER_TRENDLINE_MISSING"])
    let extension_correct :=
      match trendline_obj with
      | none => false
      | some tl =>
        let backward_val := tl.backward.getD 0
        let forward_val := tl.forward.getD 0
        if 2 ≤ forward_val then true
        else decide (1 ≤ backward_val ∧ 1 ≤ forward_val)
    let (t2, fb6) :=
      if extension_correct then ((1 : ℚ), ["IA_SCATTER_EXTENDED_CORRECT"])
      else (0, ["IA_SCATTER_EXTENDED_MISSING"])
    let trendline_score := t1 + t2
    [ .num chart_labels_score, .num trendline_score
    , .fb (fb1 ++ fb2 ++ fb3 ++ fb4 ++ fb5 ++ fb6) ]

/-- Python tuple unpacking `a, b = t`: succeeds only on a length-2 tuple,
otherwise raises `ValueError`. -/
def pyUnpack2 (t : List PyObj) : Except PyError (PyObj × PyObj) :=
  match t with
  | [a, b] => .ok (a, b)
  | _ => .error .valueError

/-- The results dictionary built by `grade_income_analysis`. -/
structure IncomeResults where
  name_score : Nat
  name_feedback : List String
  slope_score : ℚ
  slope_feedback : List String
  predictions_score : ℚ
  predictions_feedback : List String
  scatterplot_score : PyObj
  scatterplot_feedback : PyObj
deriving DecidableEq

/-- Embeds `grade_income_analysis`: runs the Income Analysis checks in order and
assembles the results dictionary.  The statement
`scatter_score, scatter_fb = check_scatterplot(ws)` unpacks the returned
tuple into two names. -/
def grade_income_analysis (ws : Worksheet) : Except PyError IncomeResults :=
  let (name_score, name_fb) := check_name_present ws
  let (slope_score, slope_fb) := check_slope_intercept ws
  let (fmt_score, fmt_fb) := check_slope_intercept_formatting ws
  let (pred_score, pred_fb) := check_predictions ws
  let (pred_fmt_score, pred_fmt_fb) := check_currency_formatting ws
  match pyUnpack2 (check_scatterplot ws) with
  | .error e => .error e
  | .ok (scatter_score, scatter_fb) =>
    .ok
      { name_score := name_score
        name_feedback := name_fb
        slope_score := (slope_score : ℚ) + fmt_score
        slope_feedback := slope_fb ++ fmt_fb
        predictions_score := pred_score + pred_fmt_score
        predictions_feedback := pred_fb ++ pred_fmt_fb
        scatterplot_score := scatter_score
        scatterplot_feedback := scatter_fb }

/-! ## `graders/currency_conversion/row20_budget_conversion_v2.py` -/

/-- Embeds `_values_match`: relative tolerance comparison of two already-converted
numeric values (`None` operands never match).  For a zero expected value the
code compares `abs(actual) < 0.01`. -/
def values_match (actual expected : Option ℚ) (tolerance : ℚ) : Bool :=
  match actual, expected with
  | some actual_f, some expected_f =>
    if expected_f = 0 then decide (|actual_f| < 1/100)
    else decide (|actual_f - expected_f| / |expected_f| ≤ tolerance)
  | _, _ => false

/-! ## `utilities/validate_submission.py` -/

/-- A workbook: its sheets, in order, by name. -/
structure Workbook where
  sheets : List (String × Worksheet)

/-- Embeds `workbook.sheetnames`. -/
def Workbook.sheetnames (wb : Workbook) : List String :=
  wb.sheets.map Prod.fst

/-- Embeds `workbook[name]`: raises `KeyError` when no sheet has that name. -/
def wbGetSheet (wb : Workbook) (name : String) : Except PyError Worksheet :=
  match wb.sheets.find? (fun p => p.1 = name) with
  | some p => .ok p.2
  | none => .error .keyError

/-- Embeds the `REQUIRED_SHEETS` constant. -/
def REQUIRED_SHEETS : List String :=
  ["Income Analysis", "Unit Conversions", "Currency Conversion"]

/-- The canonical form used for sheet-name comparison:
`name.lower().strip()`. -/
def sheetCanon (name : String) : PyStr := pyStrip (pyLower (pystr name))

/-- Lookup in the `{name.lower().strip(): name}` dict comprehension: the
last sheet with a given canonical name wins, as later dict entries
overwrite earlier ones. -/
def canonLookup (names : List String) (key : PyStr) : Option String :=
  names.foldl (fun acc n => if sheetCanon n = key then some n else acc) none

/-- Embeds `validate_required_sheets`: `(is_valid, sheet_map, missing)`, matching
required names case-insensitively after stripping surrounding whitespace. -/
def validate_required_sheets (wb : Workbook) (required_sheets : List String) :
    Bool × List (String × Option String) × List String :=
  let actual_sheets := wb.sheetnames
  let sheet_map :=
    required_sheets.map fun r => (r, canonLookup actual_sheets (sheetCanon r))
  let missing :=
    required_sheets.filter fun r =>
      (canonLookup actual_sheets (sheetCanon r)).isNone
  (missing.length = 0, sheet_map, missing)

/-- The entry of `sheet_map` for one required name. -/
def sheet_map_get (wb : Workbook) (r : String) : Option String :=
  canonLookup wb.sheetnames (sheetCanon r)

/-! ## `orchestrator/phase1_grade_all.py`

The batch driver is embedded as a pure fold over the discovered student
files.  The outcome of each filesystem interaction (loading the submission,
loading the grading template, saving the graded workbook) is part of the
per-student environment; everything in between is the embedded grading
code.  The `pipeline_state["cancel_requested"]` flag, set at an arbitrary
moment by the `/cancel` endpoint and polled once at the top of each loop
iteration, is modelled by the Boolean history `cancel : ℕ → Bool` giving
the flag value observed at the poll before student number `idx`. -/

/-- The per-student environment of one loop iteration: the file name and
the outcomes of its three I/O operations. -/
structure StudentEnv where
  filename : String
  loadSubmission : Except PyError Workbook
  loadGrading : Except PyError Workbook
  saveResult : Except PyError Unit

/-- A tab grader invocation wrapped in the per-tab `try/except` block:
exceptions are logged and swallowed. -/
def inner_try {α : Type} (x : Except PyError α) : Option α :=
  x.toOption

/-- Truthiness of `sheet_map.get(name)`: a present, nonempty actual sheet
name. -/
def tabPresent (m : Option String) : Bool :=
  match m with
  | some s => s ≠ ""
  | none => false

/-- The body of the per-student `try` block.  On success it returns the
number of skipped tabs; any uncaught exception (corrupt submission, missing
grading template, missing "Grading Sheet" tab, failed save) escapes to the
caller.  The three per-tab grader/writer calls run inside their own inner
`try/except` blocks, so their outcome — including the `ValueError` that
`grade_income_analysis` raises — never escapes. -/
def process_student (s : StudentEnv) : Except PyError Nat := do
  let student_wb ← s.loadSubmission
  let grading_wb ← s.loadGrading
  let _ws_grading ← wbGetSheet grading_wb "Grading Sheet"
  let _validation := validate_required_sheets student_wb REQUIRED_SHEETS
  let ia := sheet_map_get student_wb "Income Analysis"
  let skipped_ia :=
    if tabPresent ia then
      let _r := inner_try (do
        let ws ← wbGetSheet student_wb (ia.getD "")
        grade_income_analysis ws)
      0
    else 1
  let uc := sheet_map_get student_wb "Unit Conversions"
  let skipped_uc := if tabPresent uc then 0 else 1
  let cc := sheet_map_get student_wb "Currency Conversion"
  let skipped_cc := if tabPresent cc then 0 else 1
  let _ ← s.saveResult
  pure (skipped_ia + skipped_uc + skipped_cc)

/-- Did this student's `try` block complete without an uncaught
exception? -/
def studentOk (s : StudentEnv) : Bool :=
  (process_student s).isOk

/-- The mutable counters of the phase-1 loop, plus the list of grading
files written (one per successfully saved student, in order). -/
structure Phase1State where
  graded : Nat
  errors : Nat
  skipped : Nat
  written : List String
deriving DecidableEq

/-- The phase-1 loop.  At the top of iteration `idx` the cancellation flag
is polled; when it reads true the loop breaks, otherwise the student is
processed to completion and, on an uncaught exception, the error counter is
incremented and the loop proceeds to the next student. -/
def phase1_go (cancel : Nat → Bool) : Nat → Phase1State → List StudentEnv →
    Phase1State
  | _, st, [] => st
  | idx, st, s :: rest =>
    if cancel idx then st
    else
      match process_student s with
      | .ok k =>
        phase1_go cancel (idx + 1)
          { st with
            graded := st.graded + 1
            skipped := st.skipped + k
            written := st.written ++ [s.filename] } rest
      | .error _ =>
        phase1_go cancel (idx + 1) { st with errors := st.errors + 1 } rest

/-- Embeds `phase1_grade_all_students`. -/
def phase1_grade_all_students (cancel : Nat → Bool)
    (student_files : List StudentEnv) : Phase1State :=
  phase1_go cancel 0 ⟨0, 0, 0, []⟩ student_files

/-- The constantly-false cancellation history (no `/cancel` request). -/
def noCancel : Nat → Bool := fun _ => false

/-- The number of students started before the cancellation flag is first
observed true, among `n` students: the length of the initial run of polls
reading false. -/
def startedBeforeCancel (cancel : Nat → Bool) : Nat → Nat → Nat
  | _, 0 => 0
  | idx, n + 1 =>
    if cancel idx then 0 else startedBeforeCancel cancel (idx + 1) n + 1

/-- A student whose submission loads, whose grading template has its
"Grading Sheet" tab, and whose save succeeds. -/
def okStudentEnv : StudentEnv :=
  { filename := "alice_MA1.xlsx"
    loadSubmission := .ok ⟨[]⟩
    loadGrading := .ok ⟨[("Grading Sheet", emptyWs)]⟩
    saveResult := .ok () }

/-- A student whose submission file is corrupt: `load_workbook` raises. -/
def corruptStudentEnv : StudentEnv :=
  { filename := "bob_MA1.xlsx"
    loadSubmission := .error .invalidFileError
    loadGrading := .ok ⟨[("Grading Sheet", emptyWs)]⟩
    saveResult := .ok () }

/-- A cancellation history whose flag is observed from the second poll
onwards. -/
def cancelAfterOne : Nat → Bool := fun i => 1 ≤ i

/-- A workbook whose only sheet is named `"income analysis "` (wrong case,
trailing blank). -/
def wbCased : Workbook := ⟨[("income analysis ", emptyWs)]⟩

/-! ## Supporting lemmas -/

/-- ASCII uppercasing is idempotent. -/
theorem upperCode_idem (n : Nat) : upperCode (upperCode n) = upperCode n := by
  unfold upperCode
  split_ifs <;> omega

/-- ASCII uppercasing never produces a space. -/
theorem upperCode_ne_space {n : Nat} (h : n ≠ 32) : upperCode n ≠ 32 := by
  unfold upperCode
  split_ifs <;> omega

/-- Characters surviving space removal are not spaces after uppercasing. -/
theorem removeAll_pyUpper_removeAll (s : PyStr) :
    removeAll 32 (pyUpper (removeAll 32 s)) = pyUpper (removeAll 32 s) := by
  unfold removeAll pyUpper
  rw [List.filter_eq_self]
  intro a ha
  rcases List.mem_map.mp ha with ⟨b, hb, rfl⟩
  rcases List.mem_filter.mp hb with ⟨-, hb2⟩
  simpa using upperCode_ne_space (by simpa using hb2)

/-- Uppercasing an already-uppercased string changes nothing. -/
theorem pyUpper_pyUpper (s : PyStr) : pyUpper (pyUpper s) = pyUpper s := by
  unfold pyUpper
  rw [List.map_map]
  exact List.map_congr_left fun a _ => upperCode_idem a

/-- Rounding an integer is that integer: `roundHalfEven` on an integer is that integer. -/
theorem roundHalfEven_int (n : ℤ) : roundHalfEven (n : ℚ) = n := by
  unfold roundHalfEven
  rw [Int.floor_intCast]
  norm_num

/-- Rounding below the half point rounds down: `roundHalfEven` below the half point rounds down. -/
theorem roundHalfEven_eq_of_lt_half {q : ℚ} {n : ℤ} (h1 : (n : ℚ) ≤ q)
    (h2 : q < (n : ℚ) + 1/2) : roundHalfEven q = n := by
  have hf : ⌊q⌋ = n := by
    rw [Int.floor_eq_iff]
    constructor
    · exact_mod_cast h1
    · linarith
  unfold roundHalfEven
  rw [hf]
  rw [if_pos (by linarith)]

/-- Rounding exceeds the floor by at most one: `roundHalfEven` is at most one above the floor. -/
theorem roundHalfEven_le_floor_add_one (q : ℚ) :
    roundHalfEven q ≤ ⌊q⌋ + 1 := by
  unfold roundHalfEven
  split_ifs <;> omega

/-- Python `round(x, 2)` is the identity on hundredth multiples. -/
theorem pyRound2_eq_self {q : ℚ} {m : ℤ} (h : q * 100 = (m : ℚ)) :
    pyRound2 q = q := by
  unfold pyRound2
  rw [h, roundHalfEven_int]
  field_simp at h ⊢
  linarith

/-! ## Claim C9 — formula normalization -/

/--
Counterexample to claim C9: `_normalize_formula` is *not* total on
non-string raw cell values.  Applied to the number `5` or the boolean
`True` (both truthy, both lacking a `replace` method), it raises
`AttributeError` instead of returning a string.
-/
theorem c9_counterexample :
    normalize_formula_py (.num 5) = .error .attributeError
      ∧ normalize_formula_py (.boolean true) = .error .attributeError := by
  constructor <;> rfl

/--
Claim C9, amended: `_normalize_formula` agrees with the pure string
normalizer on every string input and on every falsy input (`None`, `""`,
`0`, `False`), where it returns a string and cannot raise; on those inputs
normalization is idempotent, and empty or `None` input yields the empty
string.  (A truthy non-string input instead raises `AttributeError`.)
-/
theorem c9_normalize_amended :
    (∀ s : PyStr, normalize_formula_py (.str s) = .ok (normalize_formula s))
      ∧ (∀ s : PyStr,
          normalize_formula (normalize_formula s) = normalize_formula s)
      ∧ normalize_formula_py .empty = .ok []
      ∧ normalize_formula_py (.num 0) = .ok []
      ∧ normalize_formula_py (.boolean false) = .ok []
      ∧ normalize_formula [] = [] := by
  refine ⟨?_, ?_, rfl, by rfl, rfl, rfl⟩
  · intro s
    unfold normalize_formula_py normalize_formula cellTruthy
    rcases s with - | ⟨c, cs⟩ <;> simp
  · intro s
    unfold normalize_formula
    by_cases hs : s.isEmpty = true
    · simp [hs]
    · rw [if_neg hs]
      by_cases ht : (pyUpper (removeAll 32 s)).isEmpty = true
      · rw [if_pos ht]
        rw [List.isEmpty_iff] at ht
        exact ht.symm
      · rw [if_neg ht, removeAll_pyUpper_removeAll, pyUpper_pyUpper]

/-! ## Claim C1 — credit-tier evaluation order -/

/--
Counterexample to claim C1: the candidate `=AVERAGE(B15:B64,B16)` (column
G) uses the correct function and column and qualifies for the HIGH_PARTIAL
range-offset tier (`_detect_range_offset` is true: both endpoints of
`B15:B64` are off by 1), yet `_check_mean_formula` reports the looser
LOW_PARTIAL comma-instead-of-colon tier (0.5 < 0.75), because the comma
check runs before the range-offset check.
-/
theorem c1_counterexample :
    extract_function_name (pystr "=AVERAGE(B15:B64,B16)") = pystr "AVERAGE"
      ∧ detect_range_offset (pystr "=AVERAGE(B15:B64,B16)") (pystr "B")
          14 63 3 = true
      ∧ mean_full_pattern (pystr "=AVERAGE(B15:B64,B16)") (pystr "G") = false
      ∧ check_mean_formula (pystr "=AVERAGE(B15:B64,B16)") (pystr "G")
          = CREDIT_COMMA_NOT_COLON
      ∧ CREDIT_COMMA_NOT_COLON < CREDIT_RANGE_OFFSET := by
  refine ⟨by decide, by decide, by decide, ?_,
    by norm_num [CREDIT_COMMA_NOT_COLON, CREDIT_RANGE_OFFSET]⟩
  unfold check_mean_formula
  rw [if_neg (by decide), if_neg (by decide), if_pos (by decide)]

/--
Claim C1, amended: `_check_mean_formula` evaluates FULL first and returns
exactly one tier — a candidate qualifying for FULL is never reported lower,
and every result is one of the four tiers — but between the two partial
tiers the LOW_PARTIAL comma-instead-of-colon check is evaluated *before*
the HIGH_PARTIAL range-offset check, so the range-offset tier is returned
only when the comma pattern does not match, and a candidate matching the
comma pattern is never given the range-offset tier even when it qualifies
for it.
-/
theorem c1_tier_order_amended (formula col : PyStr) :
    (mean_full_pattern formula col = true →
      check_mean_formula formula col = CREDIT_FULL)
    ∧ (check_mean_formula formula col = CREDIT_FULL
        ∨ check_mean_formula formula col = CREDIT_RANGE_OFFSET
        ∨ check_mean_formula formula col = CREDIT_COMMA_NOT_COLON
        ∨ check_mean_formula formula col = CREDIT_NONE)
    ∧ (check_mean_formula formula col = CREDIT_RANGE_OFFSET →
        detect_range_offset formula (col_map col) 14 63 3 = true
          ∧ detect_comma_instead_of_colon formula (col_map col) = false
          ∧ mean_full_pattern formula col = false)
    ∧ (detect_comma_instead_of_colon formula (col_map col) = true →
        check_mean_formula formula col ≠ CREDIT_RANGE_OFFSET) := by
  have hne : (CREDIT_FULL ≠ CREDIT_RANGE_OFFSET)
      ∧ (CREDIT_COMMA_NOT_COLON ≠ CREDIT_RANGE_OFFSET)
      ∧ (CREDIT_NONE ≠ CREDIT_RANGE_OFFSET) := by
    norm_num [CREDIT_FULL, CREDIT_RANGE_OFFSET, CREDIT_COMMA_NOT_COLON,
      CREDIT_NONE]
  unfold check_mean_formula mean_full_pattern
  split_ifs with h1 h2 h3 h4 <;> simp_all

/-- Witness for `c1_tier_order_amended` at a FULL-credit candidate. -/
theorem c1_tier_order_amended_witness :
    mean_full_pattern (pystr "=AVERAGE(B14:B63)") (pystr "G") = true
      ∧ check_mean_formula (pystr "=AVERAGE(B14:B63)") (pystr "G")
          = CREDIT_FULL :=
  ⟨by decide,
    (c1_tier_order_amended (pystr "=AVERAGE(B14:B63)") (pystr "G")).1
      (by decide)⟩

/-! ## Claim C2 — the HIGH_PARTIAL range-offset tier -/

/--
Counterexample to claim C2: the candidate `=AVERAGE(B15:B62)` (column G)
has its two endpoints offset in *opposite* directions (start 15 = 14 + 1,
end 62 = 63 − 1), which the claim says does not qualify, yet the code
awards the HIGH_PARTIAL range-offset tier: `_detect_range_offset` compares
only the absolute offsets and never their directions.
-/
theorem c2_counterexample :
    searchRange (pystr "B") (normalize_formula (pystr "=AVERAGE(B15:B62)"))
        = some (15, 62)
      ∧ ((15 : ℤ) - 14 = 1 ∧ (62 : ℤ) - 63 = -1)
      ∧ detect_range_offset (pystr "=AVERAGE(B15:B62)") (pystr "B")
          14 63 3 = true
      ∧ check_mean_formula (pystr "=AVERAGE(B15:B62)") (pystr "G")
          = CREDIT_RANGE_OFFSET := by
  refine ⟨by decide, by decide, by decide, ?_⟩
  unfold check_mean_formula
  rw [if_neg (by decide), if_neg (by decide), if_neg (by decide),
    if_pos (by decide)]

/--
Claim C2, amended: `_check_mean_formula` awards the HIGH_PARTIAL
range-offset tier exactly when the candidate uses the correct function
(`AVERAGE`), none of the exact full-credit range spellings is present, the
comma pattern does not match, and the first colon-range on the expected
column has both endpoints independently within the tolerance of 3 rows of
the expected endpoints — in either direction, the two offsets need not
agree in direction — and the two offsets are not both zero.
-/
theorem c2_range_offset_amended (formula col : PyStr) :
    check_mean_formula formula col = CREDIT_RANGE_OFFSET ↔
      extract_function_name formula = pystr "AVERAGE"
        ∧ (range_patterns (col_map col)).any
            (fun p => containsSub (normalize_formula formula) p) = false
        ∧ detect_comma_instead_of_colon formula (col_map col) = false
        ∧ ∃ a b,
            searchRange (col_map col) (normalize_formula formula)
                = some (a, b)
              ∧ ¬(a = 14 ∧ b = 63)
              ∧ |(a : ℤ) - 14| ≤ 3 ∧ |(b : ℤ) - 63| ≤ 3 := by
  have hoff : detect_range_offset formula (col_map col) 14 63 3 = true ↔
      ∃ a b,
        searchRange (col_map col) (normalize_formula formula) = some (a, b)
          ∧ ¬(a = 14 ∧ b = 63)
          ∧ |(a : ℤ) - 14| ≤ 3 ∧ |(b : ℤ) - 63| ≤ 3 := by
    unfold detect_range_offset
    rcases hs : searchRange (col_map col) (normalize_formula formula) with
      - | ⟨a, b⟩
    · simp
    · show (if |(a : ℤ) - 14| = 0 ∧ |(b : ℤ) - 63| = 0 then false
          else decide (|(a : ℤ) - 14| ≤ 3 ∧ |(b : ℤ) - 63| ≤ 3)) = true ↔ _
      constructor
      · intro h
        by_cases h0 : |(a : ℤ) - 14| = 0 ∧ |(b : ℤ) - 63| = 0
        · rw [if_pos h0] at h
          exact absurd h (by simp)
        · rw [if_neg h0] at h
          have h' := of_decide_eq_true h
          refine ⟨a, b, rfl, ?_, h'.1, h'.2⟩
          rintro ⟨rfl, rfl⟩
          exact h0 (by norm_num)
      · rintro ⟨a', b', hab, hnz, h1, h2⟩
        obtain ⟨rfl, rfl⟩ : a = a' ∧ b = b' := by simpa using hab
        rw [if_neg ?_]
        · exact decide_eq_true ⟨h1, h2⟩
        · rintro ⟨ha, hb⟩
          have ha' := abs_eq_zero.mp ha
          have hb' := abs_eq_zero.mp hb
          exact hnz ⟨by omega, by omega⟩
  have hne : (CREDIT_FULL ≠ CREDIT_RANGE_OFFSET)
      ∧ (CREDIT_COMMA_NOT_COLON ≠ CREDIT_RANGE_OFFSET)
      ∧ (CREDIT_NONE ≠ CREDIT_RANGE_OFFSET) := by
    norm_num [CREDIT_FULL, CREDIT_RANGE_OFFSET, CREDIT_COMMA_NOT_COLON,
      CREDIT_NONE]
  rw [← hoff]
  unfold check_mean_formula
  split_ifs with h1 h2 h3 h4 <;> simp_all

/-! ## Claim C4 — proportional range credit -/

/--
Counterexample to claim C4: on a predictions range with exactly 8 of 17
cells correct, `check_predictions` returns `round(8 * (6/17), 1) = 2.8`,
not the claimed `round(8/17*6, 2) = 2.82`: the partial range score is
rounded to *one* decimal place, not two.
-/
theorem c4_counterexample :
    (prediction_counts wsEightOfSeventeen).1 = 8
      ∧ (check_predictions wsEightOfSeventeen).1 = 14/5
      ∧ pyRound2 ((8 : ℚ)/17 * 6) = 141/50
      ∧ (14/5 : ℚ) ≠ 141/50 := by
  have hc : prediction_counts wsEightOfSeventeen = (8, 9, 0, 0) := by decide
  have hround : roundHalfEven ((8 : ℚ) * (6/17) * 10) = 28 :=
    roundHalfEven_eq_of_lt_half (by norm_num) (by norm_num)
  have hround2 : roundHalfEven ((8 : ℚ)/17 * 6 * 100) = 282 :=
    roundHalfEven_eq_of_lt_half (by norm_num) (by norm_num)
  refine ⟨by decide, ?_, ?_, by norm_num⟩
  · simp only [check_predictions, hc]
    rw [if_neg (by norm_num), if_neg (by norm_num)]
    show pyRound1 ((8 : ℚ) * (6/17)) = 14/5
    unfold pyRound1
    rw [hround]
    norm_num
  · unfold pyRound2
    rw [hround2]
    norm_num

/--
Claim C4, amended: on a predictions range with at least one but not all of
the 17 cells correct, the aggregated score is the proportional fraction of
the 6-point category rounded to *one* decimal place,
`round(correct * (6/17), 1)` — for 8 of 17 correct cells, 2.8.
-/
theorem c4_partial_rounding_amended (ws : Worksheet)
    (h1 : 0 < (prediction_counts ws).1)
    (h2 : (prediction_counts ws).1 < 17) :
    (check_predictions ws).1
      = pyRound1 (((prediction_counts ws).1 : ℚ) * (6/17)) := by
  simp only [check_predictions]
  rw [if_neg (by omega), if_neg (by omega)]

/-- Witness for `c4_partial_rounding_amended` at the 8-of-17 worksheet. -/
theorem c4_partial_rounding_amended_witness :
    0 < (prediction_counts wsEightOfSeventeen).1
      ∧ (prediction_counts wsEightOfSeventeen).1 < 17
      ∧ (check_predictions wsEightOfSeventeen).1
          = pyRound1 (((prediction_counts wsEightOfSeventeen).1 : ℚ) * (6/17)) :=
  ⟨by decide, by decide,
    c4_partial_rounding_amended wsEightOfSeventeen (by decide) (by decide)⟩

/-! ## Claim C5 — tolerance edge of `_values_match` -/

/--
Counterexample to claim C5: the relative-tolerance edge is inclusive
(`abs(a-e)/abs(e) <= tol`), but the zero-expected absolute edge is
*strict* (`abs(a) < 0.01`), not "the same inclusive edge behaviour": a
candidate exactly at the 0.01 absolute edge is rejected.
-/
theorem c5_counterexample :
    values_match (some (101/100)) (some 1) (1/100) = true
      ∧ values_match (some (101/100 + 1/100000)) (some 1) (1/100) = false
      ∧ values_match (some (1/100)) (some 0) (1/100) = false := by
  refine ⟨?_, ?_, ?_⟩ <;>
    simp only [values_match] <;> norm_num [abs_le, le_abs, lt_abs]

/--
Claim C5, amended: `_values_match` classifies a nonzero expected value by
the inclusive relative test `|a − e|/|e| ≤ tol` (so the exact 1% edge
matches and anything beyond does not), and an expected value of exactly
zero by the *strict* absolute test `|a| < 0.01` (so the exact 0.01 edge
does not match).
-/
theorem c5_tolerance_edge_amended (a e tol : ℚ) :
    (e ≠ 0 →
      (values_match (some a) (some e) tol = true ↔ |a - e| / |e| ≤ tol))
      ∧ (values_match (some a) (some 0) tol = true ↔ |a| < 1/100) := by
  constructor
  · intro he
    simp only [values_match]
    rw [if_neg he, decide_eq_true_eq]
  · simp [values_match, decide_eq_true_eq]

/-- Witness for `c5_tolerance_edge_amended` at the exact relative edge. -/
theorem c5_tolerance_edge_amended_witness :
    ((1 : ℚ) ≠ 0)
      ∧ (values_match (some (101/100)) (some 1) (1/100) = true ↔
          |(101/100 : ℚ) - 1| / |(1 : ℚ)| ≤ 1/100) :=
  ⟨by norm_num,
    (c5_tolerance_edge_amended (101/100) 1 (1/100)).1 (by norm_num)⟩

/-! ## Claim C3 — the scatterplot unpacking `ValueError` -/

/--
Claim C3: `check_scatterplot` returns a three-element tuple on every path,
and `grade_income_analysis` unpacks it into exactly two names, so every
call of `grade_income_analysis` raises `ValueError` and the Income
Analysis results dictionary is never produced.
-/
theorem c3_scatterplot_unpack_valueerror (ws : Worksheet) :
    (check_scatterplot ws).length = 3
      ∧ grade_income_analysis ws = .error .valueError := by
  constructor
  · rcases h : ws.charts.find? (fun c => c.isScatter) with - | c <;>
      simp [check_scatterplot, h]
  · rcases h : ws.charts.find? (fun c => c.isScatter) with - | c <;>
      simp [grade_income_analysis, check_scatterplot, h, pyUnpack2]

/-! ## Claim C6 — aggregation bounds and monotonicity

Supporting lemmas: the per-cell contribution of the statistics loop is one
of 0, 1, 3/2, 2 points; the loop total is the sum of the per-cell
contributions; rounding to two decimals is the identity on such sums. -/

/-- Each statistics cell contributes 0, 2, 3/2 or 1 points. -/
theorem stat_cell_val_cases (r : Nat) (c : PyStr) (k : StatKind)
    (v : CellVal) :
    (stat_cell_val r c k v).1 = 0 ∨ (stat_cell_val r c k v).1 = 2
      ∨ (stat_cell_val r c k v).1 = 3/2 ∨ (stat_cell_val r c k v).1 = 1 := by
  rcases v <;>
    (simp only [stat_cell_val]; split_ifs <;>
      norm_num [CREDIT_RANGE_OFFSET, CREDIT_COMMA_NOT_COLON])

/-- A statistics cell contributes at most the 2 points per cell. -/
theorem stat_cell_val_le (r : Nat) (c : PyStr) (k : StatKind) (v : CellVal) :
    (stat_cell_val r c k v).1 ≤ 2 := by
  rcases stat_cell_val_cases r c k v with h | h | h | h <;> rw [h] <;> norm_num

/-- A statistics cell contribution is a half-integer. -/
theorem stat_cell_val_half (r : Nat) (c : PyStr) (k : StatKind) (v : CellVal) :
    ∃ m : ℤ, (stat_cell_val r c k v).1 = m / 2 := by
  rcases stat_cell_val_cases r c k v with h | h | h | h <;> rw [h]
  · exact ⟨0, by norm_num⟩
  · exact ⟨4, by norm_num⟩
  · exact ⟨3, by norm_num⟩
  · exact ⟨2, by norm_num⟩

/-- The loop total is the sum of the per-cell contributions. -/
theorem stat_loop_points (ws : Worksheet)
    (l : List (Nat × PyStr × StatKind)) :
    (stat_loop ws l).1
      = (l.map (fun e => (stat_cell ws e.1 e.2.1 e.2.2).1)).sum := by
  induction l with
  | nil => rfl
  | cons e rest ih =>
    rcases e with ⟨r, c, k⟩
    simp [stat_loop, ih]

/-- Sums of pointwise-bounded lists are bounded. -/
theorem sum_map_le_const {α : Type} (l : List α) (f : α → ℚ)
    (h : ∀ x ∈ l, f x ≤ 2) : (l.map f).sum ≤ 2 * l.length := by
  induction l with
  | nil => simp
  | cons x xs ih =>
    simp only [List.map_cons, List.sum_cons, List.length_cons]
    have hx := h x (by simp)
    have hxs := ih (fun y hy => h y (by simp [hy]))
    push_cast
    linarith

/-- Sums are pointwise monotone. -/
theorem sum_map_mono {α : Type} (l : List α) (f g : α → ℚ)
    (h : ∀ x ∈ l, f x ≤ g x) : (l.map f).sum ≤ (l.map g).sum := by
  induction l with
  | nil => simp
  | cons x xs ih =>
    simp only [List.map_cons, List.sum_cons]
    have hx := h x (by simp)
    have hxs := ih (fun y hy => h y (by simp [hy]))
    linarith

/-- A sum of half-integers is a half-integer. -/
theorem sum_map_half {α : Type} (l : List α) (f : α → ℚ)
    (h : ∀ x ∈ l, ∃ m : ℤ, f x = m / 2) :
    ∃ m : ℤ, (l.map f).sum = m / 2 := by
  induction l with
  | nil => exact ⟨0, by simp⟩
  | cons x xs ih =>
    obtain ⟨m1, hm1⟩ := h x (by simp)
    obtain ⟨m2, hm2⟩ := ih (fun y hy => h y (by simp [hy]))
    refine ⟨m1 + m2, ?_⟩
    simp only [List.map_cons, List.sum_cons, hm1, hm2]
    push_cast
    ring

/-- The statistics category score equals the raw sum of per-cell
contributions: the final two-decimal rounding is the identity there. -/
theorem check_statistics_score (ws : Worksheet) :
    (check_statistics ws).1
      = (statChecks.map (fun e => (stat_cell ws e.1 e.2.1 e.2.2).1)).sum := by
  obtain ⟨m, hm⟩ := sum_map_half statChecks
      (fun e => (stat_cell ws e.1 e.2.1 e.2.2).1)
      (fun e _ => stat_cell_val_half e.1 e.2.1 e.2.2 _)
  simp only [check_statistics]
  rw [stat_loop_points]
  exact pyRound2_eq_self (m := 50 * m) (by rw [hm]; push_cast; ring)

/-- The B30 branch of `check_slope_intercept` earns at most 3 points. -/
theorem slope_branch_le (f : PyStr) : (slope_branch f).1 ≤ 3 := by
  unfold slope_branch
  split_ifs <;> norm_num

/-- The B31 branch of `check_slope_intercept` earns at most 3 points. -/
theorem intercept_branch_le (f : PyStr) : (intercept_branch f).1 ≤ 3 := by
  unfold intercept_branch
  split_ifs <;> norm_num

/-- Each predictions row adds at most 1 to the correct counter. -/
theorem prediction_cell_counts_le (v : CellVal) (row : Nat) :
    (prediction_cell_counts v row).1 ≤ 1 := by
  rcases v with - | s | q | b | t
  · simp [prediction_cell_counts]
  · simp only [prediction_cell_counts]
    by_cases hsw : startsWithSub s (pystr "=") = true
    · simp only [hsw, if_true]
      split_ifs <;> simp
    · simp [hsw]
  · simp [prediction_cell_counts]
  · simp [prediction_cell_counts]
  · simp only [prediction_cell_counts]
    split_ifs <;> simp

/-- The folded correct counter is bounded by the number of rows. -/
theorem counts_foldr_le (l : List (Nat × Nat × Nat × Nat))
    (h : ∀ x ∈ l, x.1 ≤ 1) :
    ((l.foldr
      (fun a b =>
        (a.1 + b.1, a.2.1 + b.2.1, a.2.2.1 + b.2.2.1, a.2.2.2 + b.2.2.2))
      (0, 0, 0, 0)).1) ≤ l.length := by
  induction l with
  | nil => simp
  | cons x xs ih =>
    have hx := h x (by simp)
    have hxs := ih (fun y hy => h y (by simp [hy]))
    simp only [List.foldr_cons, List.length_cons]
    omega

/-- At most 17 predictions rows can be correct. -/
theorem prediction_counts_le (ws : Worksheet) :
    (prediction_counts ws).1 ≤ 17 := by
  have := counts_foldr_le
    ((predictionRows.map fun row =>
      prediction_cell_counts (ws.cells (pystr "E" ++ natToStr row)) row))
    (by
      intro x hx
      rcases List.mem_map.mp hx with ⟨r, -, rfl⟩
      exact prediction_cell_counts_le _ r)
  simpa [prediction_counts] using this

/-- Applying `round(q, 1)` to a sub-6 proportional score stays below 6. -/
theorem pyRound1_le_six {q : ℚ} (h : q ≤ 96/17) : pyRound1 q ≤ 6 := by
  have hR := roundHalfEven_le_floor_add_one (q * 10)
  have hfl : ((⌊q * 10⌋ : ℤ) : ℚ) ≤ q * 10 := Int.floor_le _
  have hR' : ((roundHalfEven (q * 10) : ℤ) : ℚ)
      ≤ ((⌊q * 10⌋ : ℤ) : ℚ) + 1 := by
    exact_mod_cast hR
  unfold pyRound1
  linarith

/-- Applying `round(q, 2)` to a sub-1 proportional score stays at most 1. -/
theorem pyRound2_le_one {q : ℚ} (h : q ≤ 16/17) : pyRound2 q ≤ 1 := by
  have hR := roundHalfEven_le_floor_add_one (q * 100)
  have hfl : ((⌊q * 100⌋ : ℤ) : ℚ) ≤ q * 100 := Int.floor_le _
  have hR' : ((roundHalfEven (q * 100) : ℤ) : ℚ)
      ≤ ((⌊q * 100⌋ : ℤ) : ℚ) + 1 := by
    exact_mod_cast hR
  unfold pyRound2
  linarith

/-- Embedded `check_predictions` never exceeds its 6-point maximum. -/
theorem check_predictions_le (ws : Worksheet) :
    (check_predictions ws).1 ≤ 6 := by
  simp only [check_predictions]
  split_ifs with h1 h2
  · norm_num
  · norm_num
  · show pyRound1 (((prediction_counts ws).1 : ℚ) * (6/17)) ≤ 6
    apply pyRound1_le_six
    have hle : (prediction_counts ws).1 ≤ 16 := by
      have := prediction_counts_le ws
      omega
    have : (((prediction_counts ws).1 : ℚ)) ≤ 16 := by exact_mod_cast hle
    linarith

/-- Embedded `check_currency_formatting` never exceeds its 1-point maximum. -/
theorem check_currency_le (ws : Worksheet) :
    (check_currency_formatting ws).1 ≤ 1 := by
  simp only [check_currency_formatting]
  split_ifs with h1 h2
  · norm_num
  · norm_num
  · show pyRound2 _ ≤ 1
    apply pyRound2_le_one
    have h17 : (predictionRows.filter fun row =>
        is_currency_zero_decimal
          (ws.numberFormat (pystr "E" ++ natToStr row))).length ≤ 17 := by
      have := List.length_filter_le
        (fun row => is_currency_zero_decimal
          (ws.numberFormat (pystr "E" ++ natToStr row)))
        predictionRows
      simpa [predictionRows] using this
    have hle : (predictionRows.filter fun row =>
        is_currency_zero_decimal
          (ws.numberFormat (pystr "E" ++ natToStr row))).length ≤ 16 := by
      omega
    have hc : ((predictionRows.filter fun row =>
        is_currency_zero_decimal
          (ws.numberFormat (pystr "E" ++ natToStr row))).length : ℚ)
        ≤ 16 := by
      exact_mod_cast hle
    rw [div_le_iff₀ (by norm_num)]
    linarith

/--
Claim C6: category aggregation never exceeds the declared category maximum
and is monotonic.  The statistics category (12 cells × 2 points) never
exceeds 24, and upgrading any one cell to a full-credit value never
decreases the category total; the Income Analysis slope category
(formulas + formatting) never exceeds its 7-point maximum, and the
predictions category (formulas + formatting) never exceeds its 7-point
maximum.
-/
theorem c6_aggregation_bounded_monotone :
    (∀ ws : Worksheet, (check_statistics ws).1 ≤ 24)
      ∧ (∀ (ws : Worksheet) (a : PyStr) (v : CellVal),
          (∀ e ∈ statChecks, e.2.1 ++ natToStr e.1 = a →
            (stat_cell_val e.1 e.2.1 e.2.2 v).1 = 2) →
          (check_statistics ws).1 ≤ (check_statistics (updateCell ws a v)).1)
      ∧ (∀ ws : Worksheet, ((check_slope_intercept ws).1 : ℚ)
          + (check_slope_intercept_formatting ws).1 ≤ 7)
      ∧ (∀ ws : Worksheet,
          (check_predictions ws).1 + (check_currency_formatting ws).1 ≤ 7) := by
  refine ⟨?_, ?_, ?_, ?_⟩
  · intro ws
    rw [check_statistics_score ws]
    have h := sum_map_le_const statChecks
      (fun e => (stat_cell ws e.1 e.2.1 e.2.2).1)
      (fun e _ => stat_cell_val_le e.1 e.2.1 e.2.2 _)
    have hlen : statChecks.length = 12 := rfl
    rw [hlen] at h
    norm_num at h
    exact h
  · intro ws a v h
    rw [check_statistics_score, check_statistics_score]
    apply sum_map_mono
    intro e he
    show (stat_cell_val e.1 e.2.1 e.2.2
        (ws.cells (e.2.1 ++ natToStr e.1))).1
      ≤ (stat_cell_val e.1 e.2.1 e.2.2
          ((updateCell ws a v).cells (e.2.1 ++ natToStr e.1))).1
    by_cases haddr : e.2.1 ++ natToStr e.1 = a
    · have h2 := h e he haddr
      have hup : (updateCell ws a v).cells (e.2.1 ++ natToStr e.1) = v := by
        simp [updateCell, haddr]
      rw [hup, h2]
      exact stat_cell_val_le _ _ _ _
    · have hup : (updateCell ws a v).cells (e.2.1 ++ natToStr e.1)
          = ws.cells (e.2.1 ++ natToStr e.1) := by
        simp [updateCell, haddr]
      rw [hup]
  · intro ws
    have h1 : (check_slope_intercept ws).1 ≤ 6 := by
      simp only [check_slope_intercept]
      have := slope_branch_le (slope_cell_formula (ws.cells (pystr "B30")))
      have := intercept_branch_le
        (slope_cell_formula (ws.cells (pystr "B31")))
      omega
    have h2 : (check_slope_intercept_formatting ws).1 ≤ 1 := by
      simp only [check_slope_intercept_formatting]
      split_ifs <;> norm_num
    have h1' : ((check_slope_intercept ws).1 : ℚ) ≤ 6 := by exact_mod_cast h1
    linarith
  · intro ws
    have := check_predictions_le ws
    have := check_currency_le ws
    linarith

/-- Witness for `c6_aggregation_bounded_monotone`: writing the full-credit
mean formula into G18 of the empty worksheet does not decrease the
statistics total. -/
theorem c6_aggregation_bounded_monotone_witness :
    (check_statistics emptyWs).1
      ≤ (check_statistics (updateCell emptyWs (pystr "G18")
          (.str (pystr "=AVERAGE(B14:B63)")))).1 :=
  c6_aggregation_bounded_monotone.2.1 emptyWs (pystr "G18")
    (.str (pystr "=AVERAGE(B14:B63)"))
    (by
      intro e he h
      fin_cases he <;>
        first
          | exact absurd h (by decide)
          | (have hcf : stat_check StatKind.mean (pystr "=AVERAGE(B14:B63)")
                  (pystr "G") = CREDIT_FULL := by
                show check_mean_formula _ _ = _
                unfold check_mean_formula
                rw [if_neg (by decide), if_pos (by decide)]
             simp only [stat_cell_val]
             rw [if_neg (by decide), if_neg (by decide), if_pos hcf]))

/-! ## Claim C10 — case-insensitive required-sheet lookup -/

/-- The sheet-name dict lookup is empty exactly when no sheet name has the
canonical form `key`. -/
theorem canonFold_eq_none_iff (key : PyStr) (names : List String) :
    ∀ init : Option String,
      (names.foldl (fun acc n => if sheetCanon n = key then some n else acc)
          init = none
        ↔ init = none ∧ ∀ a ∈ names, sheetCanon a ≠ key) := by
  induction names with
  | nil => intro init; simp
  | cons n rest ih =>
    intro init
    simp only [List.foldl_cons]
    rw [ih]
    by_cases hn : sheetCanon n = key
    · simp only [hn, if_pos rfl]
      constructor
      · rintro ⟨h, -⟩
        exact absurd h (by simp)
      · rintro ⟨-, hall⟩
        exact absurd hn (hall n (by simp))
    · rw [if_neg hn]
      simp only [List.forall_mem_cons]
      tauto

/-- A successful sheet-name dict lookup returns a sheet of the workbook
with the canonical form `key` (unless it was already the seed). -/
theorem canonFold_eq_some (key : PyStr) (names : List String) :
    ∀ (init : Option String) (a : String),
      names.foldl (fun acc n => if sheetCanon n = key then some n else acc)
          init = some a →
        init = some a ∨ (a ∈ names ∧ sheetCanon a = key) := by
  induction names with
  | nil => intro init a h; exact Or.inl h
  | cons n rest ih =>
    intro init a h
    simp only [List.foldl_cons] at h
    rcases ih _ a h with h1 | ⟨hmem, hc⟩
    · by_cases hn : sheetCanon n = key
      · rw [if_pos hn] at h1
        obtain rfl : n = a := by simpa using h1
        exact Or.inr ⟨by simp, hn⟩
      · rw [if_neg hn] at h1
        exact Or.inl h1
    · exact Or.inr ⟨by simp [hmem], hc⟩

/--
Claim C10: required-sheet lookup is tolerant of casing and surrounding
whitespace.  For every workbook and required sheet name, the name is
reported missing exactly when no sheet name matches it under the
case-insensitive, whitespace-stripped canonical form; when some sheet name
does match, the sheet map binds the required name to such a matching
actual sheet name.
-/
theorem c10_sheet_matching (wb : Workbook) (r : String)
    (hr : r ∈ REQUIRED_SHEETS) :
    (r ∈ (validate_required_sheets wb REQUIRED_SHEETS).2.2 ↔
        ∀ a ∈ wb.sheetnames, sheetCanon a ≠ sheetCanon r)
      ∧ (∀ a ∈ wb.sheetnames, sheetCanon a = sheetCanon r →
          ∃ a1, sheet_map_get wb r = some a1 ∧ a1 ∈ wb.sheetnames
            ∧ sheetCanon a1 = sheetCanon r)
      ∧ (r, sheet_map_get wb r)
          ∈ (validate_required_sheets wb REQUIRED_SHEETS).2.1 := by
  refine ⟨?_, ?_, ?_⟩
  · simp only [validate_required_sheets, List.mem_filter]
    constructor
    · rintro ⟨-, hnone⟩
      rw [Option.isNone_iff_eq_none, canonLookup,
        canonFold_eq_none_iff] at hnone
      exact hnone.2
    · intro h
      refine ⟨hr, ?_⟩
      rw [Option.isNone_iff_eq_none, canonLookup, canonFold_eq_none_iff]
      exact ⟨rfl, h⟩
  · intro a ha hc
    rcases hsome : canonLookup wb.sheetnames (sheetCanon r) with - | a1
    · rw [canonLookup, canonFold_eq_none_iff] at hsome
      exact absurd hc (hsome.2 a ha)
    · rcases canonFold_eq_some (sheetCanon r) wb.sheetnames none a1 hsome with
        h1 | ⟨hmem, hcan⟩
      · exact absurd h1 (by simp)
      · exact ⟨a1, by rw [sheet_map_get, hsome], hmem, hcan⟩
  · simp only [validate_required_sheets, List.mem_map]
    exact ⟨r, hr, rfl⟩

/-- Witness for `c10_sheet_matching`: a workbook whose only sheet is
`"income analysis "` still binds the required name `"Income Analysis"`. -/
theorem c10_sheet_matching_witness :
    ∃ a1, sheet_map_get wbCased "Income Analysis" = some a1
      ∧ a1 ∈ wbCased.sheetnames
      ∧ sheetCanon a1 = sheetCanon "Income Analysis" :=
  (c10_sheet_matching wbCased "Income Analysis" (by decide)).2.1
    "income analysis " (by decide) (by decide)

/-! ## Claims C7 and C8 — the batch loop -/

/-- Bool filters split a list's length. -/
theorem filter_length_split {α : Type} (p : α → Bool) (l : List α) :
    (l.filter p).length + (l.filter (fun x => !p x)).length = l.length := by
  induction l with
  | nil => simp
  | cons x xs ih =>
    by_cases hx : p x = true <;> simp [List.filter_cons, hx] <;> omega

/-- Characterization of the phase-1 loop without cancellation: every
student is processed; the successful ones are counted, saved and listed in
order, the failing ones only increment the error counter. -/
theorem phase1_go_noCancel (students : List StudentEnv) :
    ∀ (st : Phase1State) (idx : Nat),
      phase1_go noCancel idx st students
        = { graded := st.graded + (students.filter studentOk).length
            errors := st.errors
              + (students.filter (fun s => !studentOk s)).length
            skipped := st.skipped + ((students.filter studentOk).map
              (fun s => (process_student s).toOption.getD 0)).sum
            written := st.written ++ (students.filter studentOk).map
              StudentEnv.filename } := by
  induction students with
  | nil => intro st idx; simp [phase1_go, noCancel]
  | cons s rest ih =>
    intro st idx
    simp only [phase1_go, noCancel, Bool.false_eq_true, if_false]
    rcases hps : process_student s with e | k
    · have hok : studentOk s = false := by
        simp only [studentOk, hps]
        rfl
      show phase1_go noCancel (idx + 1)
          { graded := st.graded, errors := st.errors + 1,
            skipped := st.skipped, written := st.written } rest = _
      rw [ih]
      simp [List.filter_cons, hok, hps, Phase1State.mk.injEq]
      omega
    · have hok : studentOk s = true := by
        simp only [studentOk, hps]
        rfl
      show phase1_go noCancel (idx + 1)
          { graded := st.graded + 1, errors := st.errors,
            skipped := st.skipped + k,
            written := st.written ++ [s.filename] } rest = _
      rw [ih]
      simp [List.filter_cons, hok, hps, Except.toOption,
        Phase1State.mk.injEq, List.append_assoc]
      omega

/--
Claim C7: a document-level failure is fatal for that student only.  For
every batch, the driver grades exactly the students whose document
operations succeed, counts one error for each student whose per-student
`try` block raises, processes every student (graded + errors = batch
size), and writes exactly the successful students' grading files, in
order; in particular the concrete batch ok–corrupt–ok grades both healthy
students around the corrupt one.
-/
theorem c7_failure_isolation :
    (∀ students : List StudentEnv,
      (phase1_grade_all_students noCancel students).graded
          = (students.filter studentOk).length
        ∧ (phase1_grade_all_students noCancel students).errors
          = (students.filter (fun s => !studentOk s)).length
        ∧ (phase1_grade_all_students noCancel students).graded
            + (phase1_grade_all_students noCancel students).errors
          = students.length
        ∧ (phase1_grade_all_students noCancel students).written
          = (students.filter studentOk).map StudentEnv.filename)
      ∧ (phase1_grade_all_students noCancel
          [okStudentEnv, corruptStudentEnv, okStudentEnv]).graded = 2
      ∧ (phase1_grade_all_students noCancel
          [okStudentEnv, corruptStudentEnv, okStudentEnv]).errors = 1
      ∧ (phase1_grade_all_students noCancel
          [okStudentEnv, corruptStudentEnv, okStudentEnv]).written
        = ["alice_MA1.xlsx", "alice_MA1.xlsx"] := by
  refine ⟨?_, by decide, by decide, by decide⟩
  intro students
  unfold phase1_grade_all_students
  rw [phase1_go_noCancel]
  refine ⟨by simp, by simp, ?_, by simp⟩
  have := filter_length_split studentOk students
  simp only []
  omega

/-- The count of started students is at most the batch size. -/
theorem startedBeforeCancel_le (cancel : Nat → Bool) :
    ∀ (n idx : Nat), startedBeforeCancel cancel idx n ≤ n := by
  intro n
  induction n with
  | zero => intro idx; simp [startedBeforeCancel]
  | succ m ih =>
    intro idx
    simp only [startedBeforeCancel]
    split_ifs
    · omega
    · have := ih (idx + 1)
      omega

/-- The cancelled phase-1 loop equals the uncancelled loop on the prefix
of students started before the flag was observed. -/
theorem phase1_go_take (cancel : Nat → Bool) (students : List StudentEnv) :
    ∀ (idx : Nat) (st : Phase1State),
      phase1_go cancel idx st students
        = phase1_go noCancel idx st
            (students.take
              (startedBeforeCancel cancel idx students.length)) := by
  induction students with
  | nil => intro idx st; rfl
  | cons s rest ih =>
    intro idx st
    simp only [List.length_cons, startedBeforeCancel]
    by_cases hc : cancel idx = true
    · simp [phase1_go, hc]
    · simp only [hc, if_false, List.take_succ_cons]
      simp only [phase1_go, hc, noCancel, Bool.false_eq_true, if_false]
      rcases hps : process_student s with e | k
      · exact ih (idx + 1) _
      · exact ih (idx + 1) _

/--
Claim C8: cancellation is cooperative and observed only at the boundary
between students.  The run with a cancellation history equals the
uncancelled run on exactly the prefix of students that started before the
flag was first observed true (each of them processed to completion, none
beyond), and when every student's document operations succeed, the number
of fully-written student outputs equals the number of students started
before the flag was observed.
-/
theorem c8_cooperative_cancellation (cancel : Nat → Bool)
    (students : List StudentEnv) :
    phase1_grade_all_students cancel students
        = phase1_grade_all_students noCancel
            (students.take (startedBeforeCancel cancel 0 students.length))
      ∧ ((∀ s ∈ students, studentOk s = true) →
          (phase1_grade_all_students cancel students).written.length
            = startedBeforeCancel cancel 0 students.length) := by
  have htake := phase1_go_take cancel students 0 ⟨0, 0, 0, []⟩
  constructor
  · exact htake
  · intro hok
    unfold phase1_grade_all_students
    rw [htake, phase1_go_noCancel]
    have hsub : ∀ s ∈ students.take
        (startedBeforeCancel cancel 0 students.length),
        studentOk s = true :=
      fun s hs => hok s (List.take_subset _ _ hs)
    have hfil : (students.take
          (startedBeforeCancel cancel 0 students.length)).filter studentOk
        = students.take (startedBeforeCancel cancel 0 students.length) :=
      List.filter_eq_self.mpr hsub
    simp only [hfil, List.nil_append, List.length_map, List.length_take]
    have := startedBeforeCancel_le cancel students.length 0
    omega

/-- Witness for `c8_cooperative_cancellation`: two healthy students with
the flag observed from the second poll produce exactly one output. -/
theorem c8_cooperative_cancellation_witness :
    (phase1_grade_all_students cancelAfterOne
        [okStudentEnv, okStudentEnv]).written.length
      = startedBeforeCancel cancelAfterOne 0
          ([okStudentEnv, okStudentEnv] : List StudentEnv).length :=
  (c8_cooperative_cancellation cancelAfterOne
    [okStudentEnv, okStudentEnv]).2 (by decide)

end MAGrader
